import Mathlib

/-!
# Verification of the homebox-mcp API client layer

A shallow embedding of `app/config.py`, `app/homebox_client.py` and
`app/tools.py` from the homebox-mcp repository.

Python dicts used as JSON request/response bodies are modelled as
association lists of `String × Json` in insertion order.  Python `None`
is `Json.jnull` (inside JSON data) or `Option.none` (for optional
function arguments).  The stateful HTTP layer (`HomeboxClient._request`,
`_ensure_authenticated`, `_login`) is modelled by explicit state passing
over a prescribed list of network responses; each outgoing call is
recorded in a `sent` log so that theorems can speak about which requests
were made and with which bearer token.
-/

namespace HomeboxMCP

/-- JSON values as used in the request and response bodies of the client.
`jnum` carries Python ints, `jrat` models Python floats (only
`purchase_price` flows through it; no arithmetic is performed on it). -/
inductive Json where
  | jnull
  | jbool (b : Bool)
  | jnum (n : Int)
  | jrat (q : Rat)
  | jstr (s : String)
  | jarr (xs : List Json)
  | jobj (kvs : List (String × Json))

/-- First-match association-list lookup: Python `d[k]` / `k in d` on a
dict with string keys (dicts have unique keys, so first match is the
binding). -/
def lookupKV : List (String × Json) → String → Option Json
  | [], _ => none
  | (k, v) :: rest, key => if k = key then some v else lookupKV rest key

/-- Python `d.get(k)` on a JSON object: `none` models Python `None`
for a missing key; on a non-object this models the (excluded by the
theorems' hypotheses) error case as `none`. -/
def Json.pyGet : Json → String → Option Json
  | .jobj kvs, k => lookupKV kvs k
  | _, _ => none

/-- Python `d.get(k, default)`. -/
def pyGetD (j : Json) (k : String) (d : Json) : Json :=
  (j.pyGet k).getD d

/-- Python `d.get(k)` used as a value: missing key gives `None`. -/
def getOrNull (j : Json) (k : String) : Json :=
  (j.pyGet k).getD .jnull

/-- Python truthiness of a JSON value (`if x:`). -/
def Json.truthy : Json → Bool
  | .jnull => false
  | .jbool b => b
  | .jnum n => n != 0
  | .jrat q => q != 0
  | .jstr s => s != ""
  | .jarr xs => !xs.isEmpty
  | .jobj kvs => !kvs.isEmpty

/-- Python truthiness of `d.get(k)`-style optional values. -/
def truthyO : Option Json → Bool
  | none => false
  | some v => v.truthy

/-- Elements of a JSON array (Python iteration over a list). -/
def Json.toArr : Json → List Json
  | .jarr xs => xs
  | _ => []

/-- Python `if s:` on an optional string argument, yielding the JSON
string to insert when truthy: `None` and `""` are falsy, so nothing is
inserted for them. -/
def truthyOptStr : Option String → Option Json
  | none => none
  | some s => if s = "" then none else some (.jstr s)

/-- Python `if ls:` on an optional list-of-strings argument, yielding
the JSON array to insert when truthy: `None` and `[]` are falsy. -/
def truthyOptList : Option (List String) → Option Json
  | none => none
  | some ls => if ls.isEmpty then none else some (.jarr (ls.map .jstr))

/-- `data[key] = v` performed exactly when `v` is present: the
one-entry or empty chunk appended to a body under construction. -/
def optChunk (key : String) (v : Option Json) : List (String × Json) :=
  match v with
  | some j => [(key, j)]
  | none => []

theorem pyGet_jobj (kvs : List (String × Json)) (k : String) :
    (Json.jobj kvs).pyGet k = lookupKV kvs k := rfl

theorem lookupKV_append (l₁ l₂ : List (String × Json)) (k : String) :
    lookupKV (l₁ ++ l₂) k =
      match lookupKV l₁ k with
      | some v => some v
      | none => lookupKV l₂ k := by
  induction l₁ with
  | nil => simp [lookupKV]
  | cons hd tl ih =>
    obtain ⟨k', v'⟩ := hd
    by_cases h : k' = k
    · simp [lookupKV, h]
    · simp [lookupKV, h, ih]

theorem lookupKV_optChunk (key k : String) (v : Option Json) :
    lookupKV (optChunk key v) k = if key = k then v else none := by
  cases v with
  | none => simp [optChunk, lookupKV]
  | some j =>
    by_cases h : key = k <;> simp [optChunk, lookupKV, h]

/-! ## Configuration (`app/config.py`)

Only the fields that the HTTP client reads are modelled.  The `Config`
dataclass in `src/.../app/config.py` defines `homebox_url`,
`homebox_token` and the derived `api_base_url` property; the attributes
`use_token_auth`, `homebox_username` and `homebox_password` are read by
`HomeboxClient` but defined in configuration variants that are not under
`src/`, so they are modelled from the spec (see `ClientConfig`). -/

/-- Python `s.rstrip("/")`: remove every trailing `/` character. -/
def rstripSlash (s : String) : String :=
  ⟨(s.data.reverse.dropWhile (fun c => c == '/')).reverse⟩

/-- `Config.api_base_url` (config.py lines 134–137):
`f"{self.homebox_url.rstrip('/')}/api/v1"`. -/
def api_base_url (homebox_url : String) : String :=
  rstripSlash homebox_url ++ "/api/v1"

/-- Configuration fields read by `HomeboxClient`.  `homebox_url` and
`homebox_token` come from the `Config` dataclass in `src/app/config.py`.
Modelled from the spec: the configuration variants defining
`use_token_auth`, `homebox_username` and `homebox_password` are not
under `src/`; per §4.1 the configuration carries an authentication mode
(`credentials` vs `token`, here `auth_mode_token`) and a
username/password pair. -/
structure ClientConfig where
  homebox_url : String
  homebox_token : String
  auth_mode_token : Bool
  homebox_username : String
  homebox_password : String

/-- Modelled from the spec: `Config.use_token_auth` is referenced by
`HomeboxClient._ensure_authenticated` but its defining configuration
variant is not under `src/`; per §4.2 the client adopts the configured
token directly exactly when "the client configuration designates
static-token auth and a token string is present". -/
def ClientConfig.use_token_auth (c : ClientConfig) : Bool :=
  c.auth_mode_token && c.homebox_token != ""

/-! ## Request bodies built by `HomeboxClient` (homebox_client.py)

Each `create_*`/`update_*` method builds a `data` dict and passes it as
the JSON body of a single `_request` call; the builders below mirror
those dict constructions, entry by entry and in insertion order. -/

/-- Body of `create_location` (lines 134–156): `{"name": name}` plus
`description`/`parentId` added under Python truthiness tests
(`if description:` / `if parent_id:`). -/
def create_location_body (name : String) (description parent_id : Option String) :
    List (String × Json) :=
  [("name", Json.jstr name)]
    ++ optChunk "description" (truthyOptStr description)
    ++ optChunk "parentId" (truthyOptStr parent_id)

/-- Body of `update_location` (lines 158–184): each field added under an
`is not None` test. -/
def update_location_body (name description parent_id : Option String) :
    List (String × Json) :=
  optChunk "name" (name.map .jstr)
    ++ optChunk "description" (description.map .jstr)
    ++ optChunk "parentId" (parent_id.map .jstr)

/-- Body of `create_item` (lines 240–270): `name`, `locationId`,
`quantity` always sent; `description` under `if description:` and
`labelIds` under `if labels:` (truthiness). -/
def create_item_body (name location_id : String) (description : Option String)
    (quantity : Int) (labels : Option (List String)) : List (String × Json) :=
  [("name", Json.jstr name), ("locationId", Json.jstr location_id),
   ("quantity", Json.jnum quantity)]
    ++ optChunk "description" (truthyOptStr description)
    ++ optChunk "labelIds" (truthyOptList labels)

/-- Body of `create_label` (lines 396–418): `{"name": name}` plus
`description`/`color` under truthiness tests. -/
def create_label_body (name : String) (description color : Option String) :
    List (String × Json) :=
  [("name", Json.jstr name)]
    ++ optChunk "description" (truthyOptStr description)
    ++ optChunk "color" (truthyOptStr color)

/-- Body of `update_label` (lines 420–446): each field added under an
`is not None` test. -/
def update_label_body (name description color : Option String) :
    List (String × Json) :=
  optChunk "name" (name.map .jstr)
    ++ optChunk "description" (description.map .jstr)
    ++ optChunk "color" (color.map .jstr)

/-- The optional arguments of `update_item` (lines 272–288); `none`
models a Python argument left at its `None` default. -/
structure UpdateItemArgs where
  name : Option String
  description : Option String
  quantity : Option Int
  location_id : Option String
  labels : Option (List String)
  insured : Option Bool
  archived : Option Bool
  asset_id : Option String
  serial_number : Option String
  model_number : Option String
  manufacturer : Option String
  purchase_price : Option Rat
  notes : Option String

/-- All-`None` arguments (every parameter left at its default). -/
def noUpdate : UpdateItemArgs :=
  ⟨none, none, none, none, none, none, none, none, none, none, none, none, none⟩

/-- The `labelIds` entry of the `update_item` body (lines 327–331):
`labels` if supplied (`is not None`), else the ids of the current
record's labels when `current.get("labels")` is truthy, else absent. -/
def labelsVal (labels : Option (List String)) (current : Json) : Option Json :=
  match labels with
  | some ls => some (.jarr (ls.map .jstr))
  | none =>
    if truthyO (current.pyGet "labels") then
      some (.jarr (((current.pyGet "labels").getD .jnull).toArr.map
        (fun l => getOrNull l "id")))
    else none

/-- Body of `update_item` (lines 310–349), built from the previously
fetched `current` record: `id`, the four always-sent fields with
fetch-then-merge defaults, the `labelIds` entry, then each extended
field under an `is not None` test, in source order. -/
def update_item_body (item_id : String) (current : Json) (a : UpdateItemArgs) :
    List (String × Json) :=
  [("id", Json.jstr item_id),
   ("name", match a.name with
     | some n => Json.jstr n
     | none => pyGetD current "name" (Json.jstr "")),
   ("description", match a.description with
     | some d => Json.jstr d
     | none => pyGetD current "description" (Json.jstr "")),
   ("quantity", match a.quantity with
     | some q => Json.jnum q
     | none => pyGetD current "quantity" (Json.jnum 1)),
   ("locationId", match a.location_id with
     | some l => Json.jstr l
     | none => pyGetD (pyGetD current "location" (Json.jobj [])) "id" (Json.jstr ""))]
    ++ optChunk "labelIds" (labelsVal a.labels current)
    ++ optChunk "insured" (a.insured.map .jbool)
    ++ optChunk "archived" (a.archived.map .jbool)
    ++ optChunk "assetId" (a.asset_id.map .jstr)
    ++ optChunk "serialNumber" (a.serial_number.map .jstr)
    ++ optChunk "modelNumber" (a.model_number.map .jstr)
    ++ optChunk "manufacturer" (a.manufacturer.map .jstr)
    ++ optChunk "purchasePrice" (a.purchase_price.map .jrat)
    ++ optChunk "notes" (a.notes.map .jstr)

/-- One REST request as assembled by an operation: HTTP method, endpoint
path (relative to the API base URL) and optional JSON body. -/
structure ApiReq where
  method : String
  endpoint : String
  body : Option Json

/-- The single request of `create_location`:
`POST /locations` with the built body. -/
def create_location_req (name : String) (description parent_id : Option String) :
    ApiReq :=
  ⟨"POST", "/locations", some (.jobj (create_location_body name description parent_id))⟩

/-! ## The stateful HTTP layer (`_login`, `_ensure_authenticated`,
`_request`)

The network is modelled as two prescribed lists of responses, consumed
in order: `reqs` answers the successive `client.request` calls of
`_request`, `logins` answers the successive `client.post` calls of
`_login`.  Every outgoing call is appended to a `sent` log carrying the
bearer token attached to it, so the theorems can state which requests
were made, in which order, and with which credential. -/

/-- An HTTP response: status code and already-parsed JSON body. -/
structure Response where
  status : Nat
  body : Json

/-- `httpx.Response.is_success`: status in 200–299;
`raise_for_status` raises exactly when this is false. -/
def isSuccess (status : Nat) : Bool :=
  200 ≤ status && status ≤ 299

/-- Failure conditions surfaced to the caller: `HTTPStatusError` from
`raise_for_status` (carrying status and body) or a connection-level
failure (no response available). -/
inductive CallError where
  | statusError (status : Nat) (body : Json)
  | connectError

/-- One outgoing network call as recorded in the log: an API request
(with the `Authorization` bearer value attached, `none` when no token
header was sent) or the login POST carrying the credentials. -/
inductive SentCall where
  | api (method endpoint : String) (auth : Option Json) (body : Option Json)
  | loginPost (username password : String)

/-- The prescribed network responses still to be consumed. -/
structure Net where
  reqs : List Response
  logins : List Response

/-- Client state: the held token slot (`HomeboxClient._token`), the
remaining prescribed responses, and the log of calls sent so far. -/
structure ClientState where
  token : Option Json
  net : Net
  sent : List SentCall

/-- `_get_headers` (lines 65–70): the `Authorization` bearer value is
attached exactly when the held token is truthy (`if self._token:`). -/
def bearer (token : Option Json) : Option Json :=
  match token with
  | some t => if t.truthy then some t else none
  | none => none

/-- `_login` (lines 50–63): POST the credentials to `/users/login`,
`raise_for_status`, then adopt `data.get("token")` as the held token. -/
def doLogin (cfg : ClientConfig) (s : ClientState) :
    ClientState × Except CallError Unit :=
  let s₁ : ClientState :=
    { s with sent := s.sent ++ [.loginPost cfg.homebox_username cfg.homebox_password] }
  match s₁.net.logins with
  | [] => (s₁, .error .connectError)
  | r :: rest =>
    let s₂ : ClientState := { s₁ with net := { s₁.net with logins := rest } }
    if isSuccess r.status then
      ({ s₂ with token := r.body.pyGet "token" }, .ok ())
    else
      (s₂, .error (.statusError r.status r.body))

/-- `_ensure_authenticated` (lines 39–48): when no token is held, adopt
the configured token if `use_token_auth`, else log in. -/
def ensureAuth (cfg : ClientConfig) (s : ClientState) :
    ClientState × Except CallError Unit :=
  match s.token with
  | some _ => (s, .ok ())
  | none =>
    if cfg.use_token_auth then
      ({ s with token := some (.jstr cfg.homebox_token) }, .ok ())
    else doLogin cfg s

/-- One `client.request(method, url, headers=..., **kwargs)` call:
record the call with the current bearer value and consume the next
prescribed response. -/
def sendApi (method endpoint : String) (body : Option Json) (s : ClientState) :
    ClientState × Option Response :=
  let s₁ : ClientState :=
    { s with sent := s.sent ++ [.api method endpoint (bearer s.token) body] }
  match s₁.net.reqs with
  | [] => (s₁, none)
  | r :: rest =>
    ({ s₁ with net := { s₁.net with reqs := rest } }, some r)

/-- The tail of `_request` (lines 104–109): `raise_for_status`, then
`None` for a 204 response, else the parsed JSON body. -/
def finishResp (r : Response) : Except CallError (Option Json) :=
  if isSuccess r.status then
    if r.status = 204 then .ok none else .ok (some r.body)
  else .error (.statusError r.status r.body)

/-- `_request` (lines 72–109): ensure authentication, send; on a 401
discard the token, re-authenticate, and send once more; then
`raise_for_status` / 204 / JSON handling on the final response. -/
def request (cfg : ClientConfig) (method endpoint : String) (body : Option Json)
    (s₀ : ClientState) : ClientState × Except CallError (Option Json) :=
  match ensureAuth cfg s₀ with
  | (s, .error e) => (s, .error e)
  | (s, .ok _) =>
    match sendApi method endpoint body s with
    | (s, none) => (s, .error .connectError)
    | (s, some r) =>
      if r.status = 401 then
        match ensureAuth cfg { s with token := none } with
        | (s, .error e) => (s, .error e)
        | (s, .ok _) =>
          match sendApi method endpoint body s with
          | (s, none) => (s, .error .connectError)
          | (s, some r₂) => (s, finishResp r₂)
      else (s, finishResp r)

/-- `update_item` (lines 272–351) as a stateful operation: fetch the
current record with `GET /items/{id}` (`get_item`), then `PUT` the
merged body.  A 204 fetch would hand `None` to the merge; `Json.jnull`
stands for that (excluded by the theorems' hypotheses). -/
def update_item_op (cfg : ClientConfig) (item_id : String) (a : UpdateItemArgs)
    (s : ClientState) : ClientState × Except CallError (Option Json) :=
  match request cfg "GET" ("/items/" ++ item_id) none s with
  | (s, .error e) => (s, .error e)
  | (s, .ok currentOpt) =>
    let current := currentOpt.getD Json.jnull
    request cfg "PUT" ("/items/" ++ item_id)
      (some (.jobj (update_item_body item_id current a))) s

/-- `move_item` (lines 361–371):
`return await self.update_item(item_id, location_id=location_id)`. -/
def move_item_op (cfg : ClientConfig) (item_id location_id : String)
    (s : ClientState) : ClientState × Except CallError (Option Json) :=
  update_item_op cfg item_id { noUpdate with location_id := some location_id } s

/-- `Except.isOk` for our result type: the caller observed no error. -/
def callOk (r : Except CallError (Option Json)) : Bool :=
  match r with
  | .ok _ => true
  | .error _ => false

/-! ## List-result unwrapping and tool-layer reshaping
(`get_items` in homebox_client.py; `homebox_list_locations` and
`homebox_list_items` in tools.py) -/

/-- The envelope unwrapping at the end of `get_items` (lines 222–227):
`if isinstance(response, dict) and "items" in response: return
response["items"]` — otherwise the response is returned unchanged. -/
def unwrap_items (response : Json) : Json :=
  match response with
  | .jobj kvs =>
    match lookupKV kvs "items" with
    | some v => v
    | none => .jobj kvs
  | other => other

/-- The per-location reshaping of `homebox_list_locations`
(tools.py lines 33–43), dict entries in source order. -/
def reshape_location (loc : Json) : Json :=
  .jobj [("id", getOrNull loc "id"),
         ("name", getOrNull loc "name"),
         ("description", pyGetD loc "description" (.jstr "")),
         ("parent_id", match loc.pyGet "parent" with
           | some p => if p.truthy then getOrNull p "id" else .jnull
           | none => .jnull),
         ("item_count", pyGetD loc "itemCount" (.jnum 0))]

/-- The per-item reshaping of `homebox_list_items`
(tools.py lines 137–156), dict entries in source order. -/
def reshape_item (item : Json) : Json :=
  .jobj [("id", getOrNull item "id"),
         ("name", getOrNull item "name"),
         ("description", pyGetD item "description" (.jstr "")),
         ("quantity", pyGetD item "quantity" (.jnum 1)),
         ("location", .jobj
           [("id", getOrNull (pyGetD item "location" (.jobj [])) "id"),
            ("name", getOrNull (pyGetD item "location" (.jobj [])) "name")]),
         ("labels", .jarr ((pyGetD item "labels" (.jarr [])).toArr.map
           (fun l => .jobj [("id", getOrNull l "id"), ("name", getOrNull l "name")]))),
         ("insured", pyGetD item "insured" (.jbool false)),
         ("archived", pyGetD item "archived" (.jbool false))]

/-- `homebox_list_items` applied to a raw `_request` response body:
`get_items` unwraps the envelope, then the tool reshapes each element
of the resulting sequence in order. -/
def homebox_list_items_result (raw : Json) : List Json :=
  (unwrap_items raw).toArr.map reshape_item

/-- `homebox_list_locations` applied to the raw `GET /locations`
response (a plain JSON array): each location reshaped in order. -/
def homebox_list_locations_result (raw : Json) : List Json :=
  raw.toArr.map reshape_location

/-- The per-label reshaping of `homebox_list_labels`
(tools.py lines 317–335), dict entries in source order. -/
def reshape_label (label : Json) : Json :=
  .jobj [("id", getOrNull label "id"),
         ("name", getOrNull label "name"),
         ("description", pyGetD label "description" (.jstr "")),
         ("color", pyGetD label "color" (.jstr "")),
         ("item_count", pyGetD label "itemCount" (.jnum 0))]

/-- `homebox_list_labels` applied to the raw `GET /labels` response
(a plain JSON array): each label reshaped in order. -/
def homebox_list_labels_result (raw : Json) : List Json :=
  raw.toArr.map reshape_label

/-! ## Theorems -/

/-- C7: For every configured base URL, the derived API base URL equals
the base URL with trailing slash stripped, suffixed with the fixed
versioned API path segment `/api/v1`; in particular, for
`HOMEBOX_URL=http://host:7745` the derived API base URL is
`http://host:7745/api/v1` regardless of a trailing slash on the
input. -/
theorem api_base_url_correct :
    (∀ url : String, api_base_url (url ++ "/") = api_base_url url) ∧
    (∀ url : String, url.data.getLast? ≠ some '/' →
      api_base_url url = url ++ "/api/v1") ∧
    api_base_url "http://host:7745" = "http://host:7745/api/v1" ∧
    api_base_url "http://host:7745/" = "http://host:7745/api/v1" := by
  refine ⟨?_, ?_, by decide, by decide⟩
  · intro url
    obtain ⟨l⟩ := url
    show api_base_url ⟨l ++ ['/']⟩ = api_base_url ⟨l⟩
    simp [api_base_url, rstripSlash]
  · intro url h
    obtain ⟨l⟩ := url
    have hds : l.reverse.dropWhile (fun c => c == '/') = l.reverse := by
      cases hrev : l.reverse with
      | nil => simp
      | cons c t =>
        have hc : (c == '/') = false := by
          apply beq_eq_false_iff_ne.mpr
          intro hc
          apply h
          rw [← List.head?_reverse, hrev, hc]
          rfl
        simp [List.dropWhile, hc]
    show api_base_url ⟨l⟩ = String.mk l ++ "/api/v1"
    unfold api_base_url rstripSlash
    rw [hds, List.reverse_reverse]

/-- C7 witness: the general trailing-slash facts applied at the
scenario input. -/
theorem api_base_url_correct_witness :
    api_base_url "http://host:7745" = "http://host:7745" ++ "/api/v1" ∧
    api_base_url ("http://host:7745" ++ "/") = api_base_url "http://host:7745" :=
  ⟨api_base_url_correct.2.1 "http://host:7745" (by decide),
   api_base_url_correct.1 "http://host:7745"⟩

/-- C8: `create_location("Garage", None, None)` sends exactly
`{"name": "Garage"}` as the request body of its `POST /locations`
request: unsupplied optional fields are omitted, not sent as null. -/
theorem create_location_garage_body :
    create_location_req "Garage" none none =
      ⟨"POST", "/locations", some (.jobj [("name", Json.jstr "Garage")])⟩ := by
  rfl

/-- C4: `move_item(id, new_location)` is the same operation as
`update_item(id, location_id=new_location)`: identical state evolution
(hence identical requests sent) and identical result, and the merged
body it sends carries the new location. -/
theorem move_item_equals_update_item :
    (∀ (cfg : ClientConfig) (item_id location_id : String) (s : ClientState),
      move_item_op cfg item_id location_id s =
        update_item_op cfg item_id
          ⟨none, none, none, some location_id, none, none, none, none, none,
           none, none, none, none⟩ s) ∧
    (∀ (item_id location_id : String) (current : Json),
      lookupKV (update_item_body item_id current
          { noUpdate with location_id := some location_id }) "locationId" =
        some (Json.jstr location_id)) := by
  constructor
  · intro cfg item_id location_id s
    rfl
  · intro item_id location_id current
    simp [update_item_body, lookupKV, noUpdate]

/-- C10: In the create operations an optional string field supplied as
`""` yields exactly the same request body as not supplying it (Python
truthiness omits it), whereas the update operations include an
explicitly supplied empty string: `create_location(name, "", parent)`
equals `create_location(name, None, parent)`, but
`update_location(id, description="")` (and likewise `update_label`,
`update_item`) sends the empty description. -/
theorem empty_string_create_vs_update :
    (∀ (name : String) (parent_id : Option String),
      create_location_body name (some "") parent_id =
        create_location_body name none parent_id) ∧
    (∀ (name location_id : String) (quantity : Int) (labels : Option (List String)),
      create_item_body name location_id (some "") quantity labels =
        create_item_body name location_id none quantity labels) ∧
    (∀ (name : String) (color : Option String),
      create_label_body name (some "") color =
        create_label_body name none color) ∧
    (∀ (name : String) (description : Option String),
      create_label_body name description (some "") =
        create_label_body name description none) ∧
    (∀ (name parent_id : Option String),
      lookupKV (update_location_body name (some "") parent_id) "description" =
        some (Json.jstr "")) ∧
    (∀ (name color : Option String),
      lookupKV (update_label_body name (some "") color) "description" =
        some (Json.jstr "")) ∧
    (∀ (item_id : String) (current : Json) (a : UpdateItemArgs),
      lookupKV (update_item_body item_id current { a with description := some "" })
          "description" =
        some (Json.jstr "")) := by
  refine ⟨?_, ?_, ?_, ?_, ?_, ?_, ?_⟩
  · intro name parent_id
    simp [create_location_body, truthyOptStr]
  · intro name location_id quantity labels
    simp [create_item_body, truthyOptStr]
  · intro name color
    simp [create_label_body, truthyOptStr]
  · intro name description
    simp [create_label_body, truthyOptStr]
  · intro name parent_id
    simp [update_location_body, lookupKV_append, lookupKV_optChunk, lookupKV]
  · intro name color
    simp [update_label_body, lookupKV_append, lookupKV_optChunk, lookupKV]
  · intro item_id current a
    simp [update_item_body, lookupKV]

/-- C1: Every item-update call first fetches the current record
(`GET /items/{id}` before the `PUT`), and sends a full record in which
each of the four always-sent fields (`name`, `description`, `quantity`,
`locationId`) equals the supplied value when one was supplied and
otherwise the fetched current value; `labelIds` is replaced wholesale
when supplied, else carried over from the current labels (and absent
when there are no current labels to carry); and each extended field
appears in the body if and only if it was explicitly supplied, with the
supplied value, never defaulted from current state. -/
theorem update_item_fetch_merge
    (item_id : String) (a : UpdateItemArgs) (current : Json)
    (nv dv qv locj lidv : Json)
    (hn : current.pyGet "name" = some nv)
    (hd : current.pyGet "description" = some dv)
    (hq : current.pyGet "quantity" = some qv)
    (hl : current.pyGet "location" = some locj)
    (hlid : locj.pyGet "id" = some lidv) :
    (lookupKV (update_item_body item_id current a) "name" =
      some ((a.name.map Json.jstr).getD nv)) ∧
    (lookupKV (update_item_body item_id current a) "description" =
      some ((a.description.map Json.jstr).getD dv)) ∧
    (lookupKV (update_item_body item_id current a) "quantity" =
      some ((a.quantity.map Json.jnum).getD qv)) ∧
    (lookupKV (update_item_body item_id current a) "locationId" =
      some ((a.location_id.map Json.jstr).getD lidv)) ∧
    (∀ ls, a.labels = some ls →
      lookupKV (update_item_body item_id current a) "labelIds" =
        some (.jarr (ls.map .jstr))) ∧
    (a.labels = none → ∀ cls, current.pyGet "labels" = some (.jarr cls) →
      cls.isEmpty = false →
      lookupKV (update_item_body item_id current a) "labelIds" =
        some (.jarr (cls.map (fun l => getOrNull l "id")))) ∧
    (a.labels = none → current.pyGet "labels" = some (.jarr []) →
      lookupKV (update_item_body item_id current a) "labelIds" = none) ∧
    (lookupKV (update_item_body item_id current a) "insured" =
      a.insured.map Json.jbool) ∧
    (lookupKV (update_item_body item_id current a) "archived" =
      a.archived.map Json.jbool) ∧
    (lookupKV (update_item_body item_id current a) "assetId" =
      a.asset_id.map Json.jstr) ∧
    (lookupKV (update_item_body item_id current a) "serialNumber" =
      a.serial_number.map Json.jstr) ∧
    (lookupKV (update_item_body item_id current a) "modelNumber" =
      a.model_number.map Json.jstr) ∧
    (lookupKV (update_item_body item_id current a) "manufacturer" =
      a.manufacturer.map Json.jstr) ∧
    (lookupKV (update_item_body item_id current a) "purchasePrice" =
      a.purchase_price.map Json.jrat) ∧
    (lookupKV (update_item_body item_id current a) "notes" =
      a.notes.map Json.jstr) ∧
    (∀ (cfg : ClientConfig) (t : Json) (r₁ r₂ : Response)
      (rest logins : List Response) (sent₀ : List SentCall),
      t.truthy = true →
      isSuccess r₁.status = true → r₁.status ≠ 401 → r₁.status ≠ 204 →
      r₂.status ≠ 401 → r₁.body = current →
      update_item_op cfg item_id a ⟨some t, ⟨r₁ :: r₂ :: rest, logins⟩, sent₀⟩ =
        (⟨some t, ⟨rest, logins⟩,
          sent₀ ++ [.api "GET" ("/items/" ++ item_id) (some t) none,
                    .api "PUT" ("/items/" ++ item_id) (some t)
                      (some (.jobj (update_item_body item_id current a)))]⟩,
         finishResp r₂)) := by
  refine ⟨?_, ?_, ?_, ?_, ?_, ?_, ?_, ?_, ?_, ?_, ?_, ?_, ?_, ?_, ?_, ?_⟩
  · cases hna : a.name <;>
      simp [update_item_body, lookupKV, pyGetD, hn, hna]
  · cases hda : a.description <;>
      simp [update_item_body, lookupKV, pyGetD, hd, hda]
  · cases hqa : a.quantity <;>
      simp [update_item_body, lookupKV, pyGetD, hq, hqa]
  · cases hla : a.location_id <;>
      simp [update_item_body, lookupKV, pyGetD, hl, hlid, hla]
  · intro ls hls
    simp [update_item_body, lookupKV, lookupKV_append, lookupKV_optChunk,
      labelsVal, hls]
  · intro hnone cls hcls hne
    simp [update_item_body, lookupKV, lookupKV_append, lookupKV_optChunk,
      labelsVal, hnone, hcls, truthyO, Json.truthy, Json.toArr, Option.getD, hne]
  · intro hnone hcls
    simp [update_item_body, lookupKV, lookupKV_append, lookupKV_optChunk,
      labelsVal, hnone, hcls, truthyO, Json.truthy]
  · cases hia : a.insured <;>
      simp [update_item_body, lookupKV, lookupKV_append, lookupKV_optChunk, hia]
  · cases haa : a.archived <;>
      simp [update_item_body, lookupKV, lookupKV_append, lookupKV_optChunk, haa]
  · cases has : a.asset_id <;>
      simp [update_item_body, lookupKV, lookupKV_append, lookupKV_optChunk, has]
  · cases hsn : a.serial_number <;>
      simp [update_item_body, lookupKV, lookupKV_append, lookupKV_optChunk, hsn]
  · cases hmn : a.model_number <;>
      simp [update_item_body, lookupKV, lookupKV_append, lookupKV_optChunk, hmn]
  · cases hmf : a.manufacturer <;>
      simp [update_item_body, lookupKV, lookupKV_append, lookupKV_optChunk, hmf]
  · cases hpp : a.purchase_price <;>
      simp [update_item_body, lookupKV, lookupKV_append, lookupKV_optChunk, hpp]
  · cases hnt : a.notes <;>
      simp [update_item_body, lookupKV, lookupKV_append, lookupKV_optChunk, hnt]
  · intro cfg t r₁ r₂ rest logins sent₀ ht hs₁ h401₁ h204₁ h401₂ hbody
    simp [update_item_op, request, ensureAuth, sendApi, bearer, finishResp,
      ht, hs₁, h401₁, h204₁, h401₂, hbody]

/-- Concrete current record for the C1 witness. -/
def c1Current : Json :=
  .jobj [("id", .jstr "it1"), ("name", .jstr "Lamp"),
         ("description", .jstr "old desc"), ("quantity", .jnum 2),
         ("location", .jobj [("id", .jstr "L1")]),
         ("labels", .jarr [.jobj [("id", .jstr "lab1"), ("name", .jstr "tools")]])]

/-- Concrete update arguments for the C1 witness: only `manufacturer`
supplied. -/
def c1Args : UpdateItemArgs :=
  { noUpdate with manufacturer := some "Acme" }

/-- Concrete client configuration for witnesses. -/
def c1Cfg : ClientConfig :=
  ⟨"http://h", "tk", true, "u", "p"⟩

/-- C1 witness: updating only `manufacturer` carries over the current
name, carries over the current label ids, sends the new manufacturer,
omits the unsupplied `serialNumber`, and performs the GET before the
PUT. -/
theorem update_item_fetch_merge_witness :
    lookupKV (update_item_body "it1" c1Current c1Args) "name" =
      some (Json.jstr "Lamp") ∧
    lookupKV (update_item_body "it1" c1Current c1Args) "manufacturer" =
      some (Json.jstr "Acme") ∧
    lookupKV (update_item_body "it1" c1Current c1Args) "serialNumber" = none ∧
    lookupKV (update_item_body "it1" c1Current c1Args) "labelIds" =
      some (Json.jarr [Json.jstr "lab1"]) ∧
    update_item_op c1Cfg "it1" c1Args
        ⟨some (Json.jstr "tok"),
         ⟨[⟨200, c1Current⟩, ⟨200, Json.jstr "done"⟩], []⟩, []⟩ =
      (⟨some (Json.jstr "tok"), ⟨[], []⟩,
        [] ++ [.api "GET" ("/items/" ++ "it1") (some (Json.jstr "tok")) none,
               .api "PUT" ("/items/" ++ "it1") (some (Json.jstr "tok"))
                 (some (.jobj (update_item_body "it1" c1Current c1Args)))]⟩,
       finishResp ⟨200, Json.jstr "done"⟩) := by
  have h := update_item_fetch_merge "it1" c1Args c1Current
    (Json.jstr "Lamp") (Json.jstr "old desc") (Json.jnum 2)
    (Json.jobj [("id", Json.jstr "L1")]) (Json.jstr "L1")
    rfl rfl rfl rfl rfl
  refine ⟨h.1, ?_, ?_, ?_, ?_⟩
  · exact h.2.2.2.2.2.2.2.2.2.2.2.2.1
  · exact h.2.2.2.2.2.2.2.2.2.2.1
  · exact h.2.2.2.2.2.1 rfl
      [.jobj [("id", .jstr "lab1"), ("name", .jstr "tools")]] rfl rfl
  · exact h.2.2.2.2.2.2.2.2.2.2.2.2.2.2.2 c1Cfg (Json.jstr "tok")
      ⟨200, c1Current⟩ ⟨200, Json.jstr "done"⟩ [] [] []
      rfl rfl (by decide) (by decide) (by decide) rfl

/-- C2: When the first response to an operation is a 401, the client
discards the held token, re-runs the authentication step once, retries
the original request with the new token exactly once, and surfaces the
outcome of the retried request: success means the caller observes no
error, any non-2xx on the retry (401 included) is surfaced with no
further retry.  In static-token mode the re-authentication is the
configured token, in credentials mode a single login call; a failed
re-login is itself surfaced without retrying the operation. -/
theorem request_retries_once_on_401
    (cfg : ClientConfig) (m e : String) (b : Option Json) (t : Json)
    (r₁ r₂ : Response) (rest logins : List Response) (sent₀ : List SentCall)
    (ht : t.truthy = true) (h401 : r₁.status = 401) :
    (cfg.use_token_auth = true →
      request cfg m e b ⟨some t, ⟨r₁ :: r₂ :: rest, logins⟩, sent₀⟩ =
        (⟨some (.jstr cfg.homebox_token), ⟨rest, logins⟩,
          sent₀ ++ [.api m e (some t) b,
                    .api m e (bearer (some (.jstr cfg.homebox_token))) b]⟩,
         finishResp r₂)) ∧
    (cfg.use_token_auth = false → ∀ lr lrest, logins = lr :: lrest →
      isSuccess lr.status = true →
      request cfg m e b ⟨some t, ⟨r₁ :: r₂ :: rest, logins⟩, sent₀⟩ =
        (⟨lr.body.pyGet "token", ⟨rest, lrest⟩,
          sent₀ ++ [.api m e (some t) b,
                    .loginPost cfg.homebox_username cfg.homebox_password,
                    .api m e (bearer (lr.body.pyGet "token")) b]⟩,
         finishResp r₂)) ∧
    (cfg.use_token_auth = false → ∀ lr lrest, logins = lr :: lrest →
      isSuccess lr.status = false →
      request cfg m e b ⟨some t, ⟨r₁ :: r₂ :: rest, logins⟩, sent₀⟩ =
        (⟨none, ⟨r₂ :: rest, lrest⟩,
          sent₀ ++ [.api m e (some t) b,
                    .loginPost cfg.homebox_username cfg.homebox_password]⟩,
         .error (.statusError lr.status lr.body))) ∧
    (isSuccess r₂.status = true → callOk (finishResp r₂) = true) ∧
    (isSuccess r₂.status = false →
      finishResp r₂ = .error (.statusError r₂.status r₂.body)) := by
  refine ⟨?_, ?_, ?_, ?_, ?_⟩
  · intro htok
    simp [request, ensureAuth, sendApi, bearer, ht, h401, htok]
  · intro htok lr lrest hlog hls
    simp [request, ensureAuth, sendApi, doLogin, bearer, ht, h401, htok,
      hlog, hls]
  · intro htok lr lrest hlog hls
    simp [request, ensureAuth, sendApi, doLogin, bearer, ht, h401, htok,
      hlog, hls]
  · intro hs
    rcases em (r₂.status = 204) with h | h
    · have h24 : isSuccess 204 = true := by decide
      simp [finishResp, callOk, h, h24]
    · simp [finishResp, callOk, hs, h]
  · intro hs
    simp [finishResp, hs]

/-- C2 witness: a 401 answered by a static-token re-authentication and
a successful retry completes with no error and exactly one retry; the
failure facts instantiated at a 500 retry. -/
theorem request_retries_once_on_401_witness :
    request c1Cfg "GET" "/locations" none
        ⟨some (Json.jstr "old"),
         ⟨[⟨401, Json.jnull⟩, ⟨200, Json.jstr "ok"⟩], []⟩, []⟩ =
      (⟨some (Json.jstr "tk"), ⟨[], []⟩,
        [] ++ [.api "GET" "/locations" (some (Json.jstr "old")) none,
               .api "GET" "/locations" (bearer (some (Json.jstr "tk"))) none]⟩,
       finishResp ⟨200, Json.jstr "ok"⟩) ∧
    callOk (finishResp ⟨200, Json.jstr "ok"⟩) = true ∧
    finishResp ⟨500, Json.jstr "boom"⟩ =
      .error (.statusError 500 (Json.jstr "boom")) := by
  have h := request_retries_once_on_401 c1Cfg "GET" "/locations" none
    (Json.jstr "old") ⟨401, Json.jnull⟩ ⟨200, Json.jstr "ok"⟩ [] [] []
    rfl rfl
  have h' := request_retries_once_on_401 c1Cfg "GET" "/locations" none
    (Json.jstr "old") ⟨401, Json.jnull⟩ ⟨500, Json.jstr "boom"⟩ [] [] []
    rfl rfl
  exact ⟨h.1 rfl, h.2.2.2.1 (by decide), h'.2.2.2.2 (by decide)⟩

/-- C3: On the first operation with no token held: when the
configuration designates static-token auth and a token string is
present, the client adopts the configured token directly with no
network call (state otherwise unchanged); otherwise it performs a login
call posting username and password and adopts the `token` field of the
response body as the held token. -/
theorem ensure_auth_first_operation
    (cfg : ClientConfig) (net : Net) (sent : List SentCall) :
    (cfg.auth_mode_token = true → (cfg.homebox_token != "") = true →
      ensureAuth cfg ⟨none, net, sent⟩ =
        (⟨some (.jstr cfg.homebox_token), net, sent⟩, .ok ())) ∧
    (cfg.use_token_auth = false → ∀ lr lrest, net.logins = lr :: lrest →
      isSuccess lr.status = true →
      ensureAuth cfg ⟨none, net, sent⟩ =
        (⟨lr.body.pyGet "token", ⟨net.reqs, lrest⟩,
          sent ++ [.loginPost cfg.homebox_username cfg.homebox_password]⟩,
         .ok ())) := by
  constructor
  · intro hmode htok
    simp [ensureAuth, ClientConfig.use_token_auth, hmode, htok]
  · intro htok lr lrest hlog hls
    simp [ensureAuth, doLogin, htok, hlog, hls]

/-- C3 witness: static-token adoption without network traffic, and a
credentials login adopting the `token` field of the login response. -/
theorem ensure_auth_first_operation_witness :
    ensureAuth c1Cfg ⟨none, ⟨[], []⟩, []⟩ =
      (⟨some (.jstr "tk"), ⟨[], []⟩, []⟩, .ok ()) ∧
    ensureAuth ⟨"http://h", "", false, "u", "p"⟩
        ⟨none, ⟨[], [⟨200, Json.jobj [("token", Json.jstr "fresh")]⟩]⟩, []⟩ =
      (⟨(Json.jobj [("token", Json.jstr "fresh")]).pyGet "token", ⟨[], []⟩,
        [] ++ [.loginPost "u" "p"]⟩, .ok ()) := by
  constructor
  · exact (ensure_auth_first_operation c1Cfg ⟨[], []⟩ []).1 rfl rfl
  · exact (ensure_auth_first_operation ⟨"http://h", "", false, "u", "p"⟩
      ⟨[], [⟨200, Json.jobj [("token", Json.jstr "fresh")]⟩]⟩ []).2 rfl
      ⟨200, Json.jobj [("token", Json.jstr "fresh")]⟩ [] rfl rfl

/-- C5: With a held token and a first response that is not a 401: a 204
yields no data, any other 2xx response's body is returned as the
result, and any non-2xx status raises a request-failure condition
carrying the HTTP status and body. -/
theorem request_response_semantics
    (cfg : ClientConfig) (m e : String) (b : Option Json) (t : Json)
    (r : Response) (rest logins : List Response) (sent₀ : List SentCall)
    (h401 : r.status ≠ 401) :
    (r.status = 204 →
      request cfg m e b ⟨some t, ⟨r :: rest, logins⟩, sent₀⟩ =
        (⟨some t, ⟨rest, logins⟩, sent₀ ++ [.api m e (bearer (some t)) b]⟩,
         .ok none)) ∧
    (isSuccess r.status = true → r.status ≠ 204 →
      request cfg m e b ⟨some t, ⟨r :: rest, logins⟩, sent₀⟩ =
        (⟨some t, ⟨rest, logins⟩, sent₀ ++ [.api m e (bearer (some t)) b]⟩,
         .ok (some r.body))) ∧
    (isSuccess r.status = false →
      request cfg m e b ⟨some t, ⟨r :: rest, logins⟩, sent₀⟩ =
        (⟨some t, ⟨rest, logins⟩, sent₀ ++ [.api m e (bearer (some t)) b]⟩,
         .error (.statusError r.status r.body))) := by
  refine ⟨?_, ?_, ?_⟩
  · intro h204
    have h24 : isSuccess 204 = true := by decide
    simp [request, ensureAuth, sendApi, finishResp, h401, h204, h24]
  · intro hs h204
    simp [request, ensureAuth, sendApi, finishResp, h401, h204, hs]
  · intro hs
    have h204 : r.status ≠ 204 := by
      intro h
      rw [h] at hs
      simp [isSuccess] at hs
    simp [request, ensureAuth, sendApi, finishResp, h401, h204, hs]

/-- C5 witness: the three response-handling cases at concrete
responses (204, 200 with a body, 404 with a body). -/
theorem request_response_semantics_witness :
    request c1Cfg "DELETE" "/items/x" none
        ⟨some (Json.jstr "t"), ⟨[⟨204, Json.jnull⟩], []⟩, []⟩ =
      (⟨some (Json.jstr "t"), ⟨[], []⟩,
        [] ++ [.api "DELETE" "/items/x" (bearer (some (Json.jstr "t"))) none]⟩,
       .ok none) ∧
    request c1Cfg "GET" "/items/x" none
        ⟨some (Json.jstr "t"), ⟨[⟨200, Json.jstr "rec"⟩], []⟩, []⟩ =
      (⟨some (Json.jstr "t"), ⟨[], []⟩,
        [] ++ [.api "GET" "/items/x" (bearer (some (Json.jstr "t"))) none]⟩,
       .ok (some (Json.jstr "rec"))) ∧
    request c1Cfg "GET" "/items/x" none
        ⟨some (Json.jstr "t"), ⟨[⟨404, Json.jstr "nf"⟩], []⟩, []⟩ =
      (⟨some (Json.jstr "t"), ⟨[], []⟩,
        [] ++ [.api "GET" "/items/x" (bearer (some (Json.jstr "t"))) none]⟩,
       .error (.statusError 404 (Json.jstr "nf"))) := by
  refine ⟨?_, ?_, ?_⟩
  · exact (request_response_semantics c1Cfg "DELETE" "/items/x" none
      (Json.jstr "t") ⟨204, Json.jnull⟩ [] [] [] (by decide)).1 rfl
  · exact (request_response_semantics c1Cfg "GET" "/items/x" none
      (Json.jstr "t") ⟨200, Json.jstr "rec"⟩ [] [] [] (by decide)).2.1
      (by decide) (by decide)
  · exact (request_response_semantics c1Cfg "GET" "/items/x" none
      (Json.jstr "t") ⟨404, Json.jstr "nf"⟩ [] [] [] (by decide)).2.2
      (by decide)

/-- C6: `get_items` unwraps the server's `items` envelope transparently
so callers always receive a plain sequence (a plain array passes
through unchanged); and for all three list operations — items,
locations, labels — the returned sequence is the in-order element-wise
reshaping of the remote service's sequence (so element order is
preserved) and is empty (not an error) when the remote service reports
zero matches. -/
theorem list_items_unwrap_and_order
    (kvs : List (String × Json)) (xs : List Json)
    (h : lookupKV kvs "items" = some (.jarr xs)) :
    unwrap_items (.jobj kvs) = .jarr xs ∧
    homebox_list_items_result (.jobj kvs) = xs.map reshape_item ∧
    (∀ ys : List Json, unwrap_items (.jarr ys) = .jarr ys) ∧
    (xs = [] → homebox_list_items_result (.jobj kvs) = []) ∧
    (∀ ys : List Json,
      homebox_list_locations_result (.jarr ys) = ys.map reshape_location) ∧
    homebox_list_locations_result (.jarr []) = [] ∧
    (∀ ys : List Json,
      homebox_list_labels_result (.jarr ys) = ys.map reshape_label) ∧
    homebox_list_labels_result (.jarr []) = [] := by
  refine ⟨?_, ?_, ?_, ?_, ?_, ?_, ?_, ?_⟩
  · simp [unwrap_items, h]
  · simp [homebox_list_items_result, unwrap_items, h, Json.toArr]
  · intro ys
    rfl
  · intro hxs
    simp [homebox_list_items_result, unwrap_items, h, hxs, Json.toArr]
  · intro ys
    rfl
  · rfl
  · intro ys
    rfl
  · rfl

/-- C6 witness: a two-item envelope unwraps to the two items in order;
zero-match responses yield the empty list for the item, location and
label list tools; and two-element location/label responses map in
order. -/
theorem list_items_unwrap_and_order_witness :
    unwrap_items (.jobj [("items", .jarr [Json.jstr "a", Json.jstr "b"])]) =
      .jarr [Json.jstr "a", Json.jstr "b"] ∧
    homebox_list_items_result
        (.jobj [("items", .jarr [Json.jstr "a", Json.jstr "b"])]) =
      [Json.jstr "a", Json.jstr "b"].map reshape_item ∧
    homebox_list_items_result (.jobj [("items", .jarr [])]) = [] ∧
    homebox_list_locations_result (.jarr [Json.jstr "l1", Json.jstr "l2"]) =
      [Json.jstr "l1", Json.jstr "l2"].map reshape_location ∧
    homebox_list_locations_result (.jarr []) = [] ∧
    homebox_list_labels_result (.jarr [Json.jstr "t1", Json.jstr "t2"]) =
      [Json.jstr "t1", Json.jstr "t2"].map reshape_label ∧
    homebox_list_labels_result (.jarr []) = [] := by
  have h₁ := list_items_unwrap_and_order
    [("items", .jarr [Json.jstr "a", Json.jstr "b"])]
    [Json.jstr "a", Json.jstr "b"] rfl
  have h₂ := list_items_unwrap_and_order [("items", .jarr [])] [] rfl
  exact ⟨h₁.1, h₁.2.1, h₂.2.2.2.1 rfl,
    h₁.2.2.2.2.1 [Json.jstr "l1", Json.jstr "l2"], h₁.2.2.2.2.2.1,
    h₁.2.2.2.2.2.2.1 [Json.jstr "t1", Json.jstr "t2"], h₁.2.2.2.2.2.2.2⟩

/-- C9: The list tools reshape each raw record into the simplified
output shape: a nested `location.parent.id` is flattened into a
`parent_id` field (null when there is no parent or the parent is
falsy), label objects are flattened to `{id, name}` pairs, a missing
`quantity` defaults to 1, and missing `insured`/`archived` booleans
default to false. -/
theorem reshape_flattening_and_defaults :
    (∀ loc : Json, loc.pyGet "parent" = none →
      (reshape_location loc).pyGet "parent_id" = some Json.jnull) ∧
    (∀ loc p pid : Json, loc.pyGet "parent" = some p → p.truthy = true →
      p.pyGet "id" = some pid →
      (reshape_location loc).pyGet "parent_id" = some pid) ∧
    (∀ loc p : Json, loc.pyGet "parent" = some p → p.truthy = false →
      (reshape_location loc).pyGet "parent_id" = some Json.jnull) ∧
    (∀ item : Json, item.pyGet "quantity" = none →
      (reshape_item item).pyGet "quantity" = some (Json.jnum 1)) ∧
    (∀ item : Json, item.pyGet "insured" = none →
      (reshape_item item).pyGet "insured" = some (Json.jbool false)) ∧
    (∀ item : Json, item.pyGet "archived" = none →
      (reshape_item item).pyGet "archived" = some (Json.jbool false)) ∧
    (∀ (item : Json) (ls : List Json), item.pyGet "labels" = some (.jarr ls) →
      (reshape_item item).pyGet "labels" =
        some (.jarr (ls.map (fun l =>
          .jobj [("id", getOrNull l "id"), ("name", getOrNull l "name")])))) := by
  refine ⟨?_, ?_, ?_, ?_, ?_, ?_, ?_⟩
  · intro loc h
    simp [reshape_location, pyGet_jobj, lookupKV, h]
  · intro loc p pid hp htr hid
    simp [reshape_location, pyGet_jobj, lookupKV, hp, htr, getOrNull, hid]
  · intro loc p hp htr
    simp [reshape_location, pyGet_jobj, lookupKV, hp, htr]
  · intro item h
    simp [reshape_item, pyGet_jobj, lookupKV, pyGetD, h]
  · intro item h
    simp [reshape_item, pyGet_jobj, lookupKV, pyGetD, h]
  · intro item h
    simp [reshape_item, pyGet_jobj, lookupKV, pyGetD, h]
  · intro item ls h
    simp [reshape_item, pyGet_jobj, lookupKV, pyGetD, h, Json.toArr]

/-- C9 witness: the reshaping facts at a concrete location with a
parent and a concrete item lacking `quantity`/`insured`/`archived` and
carrying one label object. -/
theorem reshape_flattening_and_defaults_witness :
    (reshape_location (.jobj [("id", Json.jstr "L2"),
        ("parent", .jobj [("id", Json.jstr "L1")])])).pyGet "parent_id" =
      some (Json.jstr "L1") ∧
    (reshape_item (.jobj [("id", Json.jstr "it"),
        ("labels", .jarr [.jobj [("id", Json.jstr "lab1"),
          ("name", Json.jstr "tools"), ("color", Json.jstr "#fff")]])])).pyGet
        "quantity" = some (Json.jnum 1) ∧
    (reshape_item (.jobj [("id", Json.jstr "it"),
        ("labels", .jarr [.jobj [("id", Json.jstr "lab1"),
          ("name", Json.jstr "tools"), ("color", Json.jstr "#fff")]])])).pyGet
        "insured" = some (Json.jbool false) ∧
    (reshape_item (.jobj [("id", Json.jstr "it"),
        ("labels", .jarr [.jobj [("id", Json.jstr "lab1"),
          ("name", Json.jstr "tools"), ("color", Json.jstr "#fff")]])])).pyGet
        "labels" = some (.jarr [.jobj [("id", Json.jstr "lab1"),
          ("name", Json.jstr "tools")]]) := by
  have h := reshape_flattening_and_defaults
  refine ⟨?_, ?_, ?_, ?_⟩
  · exact h.2.1 (.jobj [("id", Json.jstr "L2"),
      ("parent", .jobj [("id", Json.jstr "L1")])])
      (.jobj [("id", Json.jstr "L1")]) (Json.jstr "L1") rfl rfl rfl
  · exact h.2.2.2.1 (.jobj [("id", Json.jstr "it"),
      ("labels", .jarr [.jobj [("id", Json.jstr "lab1"),
        ("name", Json.jstr "tools"), ("color", Json.jstr "#fff")]])]) rfl
  · exact h.2.2.2.2.1 (.jobj [("id", Json.jstr "it"),
      ("labels", .jarr [.jobj [("id", Json.jstr "lab1"),
        ("name", Json.jstr "tools"), ("color", Json.jstr "#fff")]])]) rfl
  · exact h.2.2.2.2.2.2 (.jobj [("id", Json.jstr "it"),
      ("labels", .jarr [.jobj [("id", Json.jstr "lab1"),
        ("name", Json.jstr "tools"), ("color", Json.jstr "#fff")]])])
      [.jobj [("id", Json.jstr "lab1"), ("name", Json.jstr "tools"),
        ("color", Json.jstr "#fff")]] rfl

end HomeboxMCP
